import Mathlib

/-!
Verification development for the DEXTRA_NANONETS worker repository.

The Python sources are shallowly embedded as Lean definitions:
Python strings of payload data are modelled as lists of characters,
bytes as lists of natural numbers, exceptions as Except values, and
the wall-clock of the polling loops as a discrete step model in which
one loop iteration costs exactly its sleep interval.
-/

deriving instance DecidableEq for Except

namespace Dextra

/-- Characters treated as whitespace by Python str.strip. -/
def isPySpace (c : Char) : Bool :=
  c == ' ' || c == '\t' || c == '\n' || c == '\r' || c == '\x0b' || c == '\x0c'

/-- Truthiness of page_content.strip(): true when some non-whitespace
character is present. -/
def pyStripTruthy (s : String) : Bool :=
  s.data.any (fun c => !(isPySpace c))

/-- Number of positions of s at which pat occurs as a contiguous substring. -/
def countSub (pat : List Char) : List Char → Nat
  | [] => 0
  | c :: rest => (if pat.isPrefixOf (c :: rest) then 1 else 0) + countSub pat rest

/-- The separator "base64," used by decode_base64_files in worker.py. -/
def sepB64 : List Char := ['b', 'a', 's', 'e', '6', '4', ',']

/-- Characters of s before the first occurrence of sepB64 (all of s when
there is none): the segment between two occurrences in Python split terms. -/
def takeUntilB64 : List Char → List Char
  | [] => []
  | c :: rest =>
    if sepB64.isPrefixOf (c :: rest) then []
    else c :: takeUntilB64 rest

/-- Characters of s after the first occurrence of sepB64, none when sepB64
does not occur in s.  isSome of this models the Python test
"base64," in base64_data. -/
def dropThruB64 : List Char → Option (List Char)
  | [] => none
  | c :: rest =>
    if sepB64.isPrefixOf (c :: rest) then some ((c :: rest).drop sepB64.length)
    else dropThruB64 rest

/-- worker.py lines 180-182: if "base64," occurs in the data, replace the
data by split("base64,")[1], i.e. the segment strictly between the first
occurrence and the following occurrence (or the end). -/
def stripDataUri (s : List Char) : List Char :=
  match dropThruB64 s with
  | some afterFirst => takeUntilB64 afterFirst
  | none => s

/-- Value of a standard base64 alphabet character, none for other characters. -/
def b64charVal (c : Char) : Option Nat :=
  if 'A' ≤ c ∧ c ≤ 'Z' then some (c.toNat - 65)
  else if 'a' ≤ c ∧ c ≤ 'z' then some (c.toNat - 97 + 26)
  else if '0' ≤ c ∧ c ≤ '9' then some (c.toNat - 48 + 52)
  else if c = '+' then some 62
  else if c = '/' then some 63
  else none

/-- Whether c is a base64 data character. -/
def b64isData (c : Char) : Bool := (b64charVal c).isSome

/-- The three bytes encoded by a full quad of sextet values. -/
def b64quadBytes (a b c d : Nat) : List Nat :=
  [a * 4 + b / 16, (b % 16) * 16 + c / 4, (c % 4) * 64 + d]

/-- Decoding of the final four-character group, honouring '=' padding. -/
def b64finalGroup (a b c d : Char) : Except String (List Nat) :=
  match b64charVal a, b64charVal b with
  | some va, some vb =>
    if c = '=' ∧ d = '=' then .ok [va * 4 + vb / 16]
    else
      match b64charVal c with
      | some vc =>
        if d = '=' then .ok [va * 4 + vb / 16, (vb % 16) * 16 + vc / 4]
        else
          match b64charVal d with
          | some vd => .ok (b64quadBytes va vb vc vd)
          | none => .error "Invalid base64-encoded string"
      | none => .error "Invalid base64-encoded string"
  | _, _ => .error "Invalid base64-encoded string"

/-- Group-wise decoding of a filtered base64 character sequence. -/
def b64groups : List Char → Except String (List Nat)
  | [] => .ok []
  | a :: b :: c :: d :: rest =>
    if rest.isEmpty then b64finalGroup a b c d
    else
      match b64charVal a, b64charVal b, b64charVal c, b64charVal d with
      | some va, some vb, some vc, some vd =>
        match b64groups rest with
        | .ok bs => .ok (b64quadBytes va vb vc vd ++ bs)
        | .error e => .error e
      | _, _, _, _ => .error "Invalid base64-encoded string"
  | _ => .error "Incorrect padding"

/-- Model of Python base64.b64decode: characters outside the base64
alphabet and '=' are discarded, the rest must form full quads with
trailing '=' padding, otherwise a padding error is raised. -/
def b64decode (s : List Char) : Except String (List Nat) :=
  b64groups (s.filter (fun c => b64isData c || c == '='))

/-! ## PageExtractionPipeline: docstrange/processors/pdf_processor.py -/

/-- pdf_processor.py line 109: the string appended to all_content for page
index pageNum (0-based) whose processed content is content. -/
def pageEntry (pageNum : Nat) (content : String) : String :=
  "## Page " ++ toString (pageNum + 1) ++ "\n\n" ++ content

/-- The per-page loop of PDFProcessor._process_with_ocr (lines 97-113) over
the outcomes of self._image_processor.process for each page, starting at
page index n: an exception on any page propagates; a page whose content
strips to empty is skipped; otherwise its pageEntry is appended. -/
def ocrLoop : Nat → List (Except String String) → Except String (List String)
  | _, [] => .ok []
  | _, .error e :: _ => .error e
  | n, .ok c :: rest =>
    match ocrLoop (n + 1) rest with
    | .error e => .error e
    | .ok tail => .ok (if pyStripTruthy c then pageEntry n c :: tail else tail)

/-- PDFProcessor._process_with_ocr (lines 83-132) given the per-page
outcomes of the image processor: on success, the joined page entries (or
the sentinel when every page was empty) together with the page count; a
page exception is re-raised as ConversionError by the enclosing except
clause. -/
def process_with_ocr (pages : List (Except String String)) : Except String (String × Nat) :=
  match ocrLoop 0 pages with
  | .error e => .error ("OCR-based PDF processing failed: " ++ e)
  | .ok entries =>
    .ok ((if entries.isEmpty then "No content extracted from PDF"
          else String.intercalate "\n\n" entries), pages.length)

/-! ## ProcessSupervisor: docext/core/vllm.py and worker.py readiness waits.

Time model: health and liveness are functions of the poll-cycle index; one
cycle of wait_for_server costs its 2-second sleep and one cycle of the
wait_for_gradio loop costs its 5-second sleep, so the cycle at index i
starts at elapsed 2*i (respectively 5*i) seconds.  The second component of
each result is the elapsed time at exit. -/

/-- Terminal outcomes of the two readiness waits.  The constructors
startupTimeoutError and processCrashError are the outcomes the
specification names; the source never produces them. -/
inductive SupOutcome
  | ready
  | stopThenExit1
  | gradioDied
  | gradioTimeout
  | startupTimeoutError
  | processCrashError
deriving DecidableEq

/-- The while-loop of VLLMServer.wait_for_server with k poll cycles left,
currently at cycle index i.  Transient request failures are already folded
into health returning false.  When the cycles are exhausted the source
logs, calls stop_server() and then exit(1). -/
def waitGo (health : Nat → Bool) : Nat → Nat → SupOutcome × Nat
  | 0, i => (.stopThenExit1, 2 * i)
  | k + 1, i => if health i then (.ready, 2 * i) else waitGo health k (i + 1)

/-- VLLMServer.wait_for_server (vllm.py lines 106-124): polls the health
endpoint every 2 seconds while elapsed time is below timeout, i.e. for
cycle indices i with 2*i < timeout; note the source never inspects the
process handle, so the model takes no process-liveness argument. -/
def wait_for_server (health : Nat → Bool) (timeout : Nat) : SupOutcome × Nat :=
  waitGo health ((timeout + 1) / 2) 0

/-- The for-loop of wait_for_gradio (worker.py lines 131-160) with k
retries left at cycle index i: each cycle first checks whether the Gradio
process has exited (raising RuntimeError if so), then polls the health
endpoint, then sleeps 5 seconds; exhausting max_retries raises the timeout
RuntimeError. -/
def gradioGo (alive health : Nat → Bool) : Nat → Nat → SupOutcome × Nat
  | 0, i => (.gradioTimeout, 5 * i)
  | k + 1, i =>
    if alive i = false then (.gradioDied, 5 * i)
    else if health i then (.ready, 5 * i)
    else gradioGo alive health k (i + 1)

/-- The subprocess-fallback wait of wait_for_gradio: max_retries is
MAX_STARTUP_WAIT // 5 (worker.py line 129). -/
def wait_for_gradio_poll (alive health : Nat → Bool) (maxStartupWait : Nat) : SupOutcome × Nat :=
  gradioGo alive health (maxStartupWait / 5) 0

/-! ## VLLMServer.start_server command construction (vllm.py lines 41-104) -/

/-- Whether pat occurs in s as a contiguous substring: Python in for str. -/
def containsSub (pat : List Char) : List Char → Bool
  | [] => pat.isEmpty
  | c :: rest => pat.isPrefixOf (c :: rest) || containsSub pat rest

/-- Whether the model identifier names an AWQ-quantized variant:
"awq" in self.model_name.lower(). -/
def isAwqModel (model_name : String) : Bool :=
  containsSub "awq".data (model_name.data.map Char.toLower)

/-- Python str.replace of "hosted_vllm/" by the empty string, fuel-indexed
scan over the characters (fuel at least the length of the remainder). -/
def removeHostedGo : Nat → List Char → List Char
  | 0, s => s
  | fuel + 1, s =>
    match s with
    | [] => []
    | c :: rest =>
      if List.isPrefixOf "hosted_vllm/".data (c :: rest) then
        removeHostedGo fuel ((c :: rest).drop 12)
      else c :: removeHostedGo fuel rest

/-- self.model_name.replace("hosted_vllm/", ""). -/
def removeHosted (s : String) : String :=
  ⟨removeHostedGo s.data.length s.data⟩

/-- The argv list built by VLLMServer.start_server.  The GPU memory
utilization is passed already stringified (the source applies str to a
float, which the embedding does not re-model). -/
def start_server_cmd (model_name host : String) (port max_model_len : Nat)
    (gpuMemUtil : String) (max_num_imgs : Nat) (dtype : String)
    (cuda_available : Bool) : List String :=
  let is_awq := isAwqModel model_name
  let dtypeArg := if is_awq then "float16" else dtype
  let served := removeHosted model_name
  (["vllm", "serve", served,
    "--host", host,
    "--port", toString port,
    "--dtype", dtypeArg,
    "--limit-mm-per-prompt", "image=" ++ toString max_num_imgs ++ ",video=0",
    "--served-model-name", served,
    "--max-model-len", toString max_model_len,
    "--enforce-eager",
    "--disable-log-stats"]
   ++ (if cuda_available then ["--gpu-memory-utilization", gpuMemUtil]
       else ["--device", "cpu"]))
  ++ (if is_awq then ["--quantization", "awq"] else [])

/-! ## JobHandler: worker.py.

Non-list values for the files, fields and tables keys of the payload are
outside the modelled input space, so the isinstance branches of
validate_input are not represented; an absent key is modelled as none. -/

/-- One entry of the files list: a dict whose filename and data keys may
each be absent (worker.py reads them with .get and defaults). -/
structure FileData where
  filename : Option String
  data : Option (List Char)
deriving DecidableEq

/-- A staged temporary file: its suffix and its decoded byte contents
(the operating-system path name is not modelled; allocation order is). -/
structure TempFile where
  suffix : List Char
  contents : List Nat
deriving DecidableEq

/-- Everything after the last '.' of s. -/
def afterLastDot (s : List Char) : List Char :=
  ((s.reverse.takeWhile (fun c => c != '.')).reverse)

/-- worker.py line 188: Path(filename).suffix if "." in filename else
".pdf" (pathlib corner cases such as a bare trailing dot are approximated
by the last-dot suffix). -/
def extOf (filename : String) : List Char :=
  if filename.data.contains '.' then '.' :: afterLastDot filename.data
  else ".pdf".data

/-- Decoding of one files entry (worker.py lines 176-200): defaulted
filename and data, data-URI stripping, base64 decoding, extension
inference; the written temporary file or the decoding exception. -/
def decodeOneFile (fd : FileData) : Except String TempFile :=
  let filename := fd.filename.getD "document"
  let data := fd.data.getD []
  match b64decode (stripDataUri data) with
  | .error e => .error e
  | .ok bytes => .ok ⟨extOf filename, bytes⟩

/-- The loop of decode_base64_files with the temp files written so far:
on a per-file failure the source logs and re-raises, so the function
returns the exception while the files already written stay on disk and
are not handed to the caller. -/
def stageGo : List FileData → List TempFile → List TempFile × Except String (List TempFile)
  | [], acc => (acc, .ok acc)
  | fd :: rest, acc =>
    match decodeOneFile fd with
    | .error e => (acc, .error e)
    | .ok tf => stageGo rest (acc ++ [tf])

/-- decode_base64_files (worker.py lines 163-206): first component is the
list of temporary files actually written (in allocation order), second is
the returned path list or the escaping exception. -/
def decode_base64_files (files : List FileData) : List TempFile × Except String (List TempFile) :=
  stageGo files []

/-- cleanup_temp_files (worker.py lines 209-221) applied to the paths the
handler holds: every staged file exists and is removed, so the deleted
set equals the argument (the companion glob of converted .jpg images is
not modelled). -/
def cleanup_temp_files (paths : List TempFile) : List TempFile := paths

/-- One entry of the fields or tables list: a non-dict value, a dict
without the name key, or a dict with a name (and optional description). -/
inductive SpecItem
  | nonDict
  | noName (description : Option String)
  | named (name : String) (description : Option String)
deriving DecidableEq

/-- The name the post-validation code reads with item["name"]; validation
guarantees the named form, the other branches are unreachable there. -/
def specName : SpecItem → String
  | .named n _ => n
  | _ => ""

/-- item.get("description", ""). -/
def specDesc : SpecItem → String
  | .named _ d => d.getD ""
  | .noName d => d.getD ""
  | .nonDict => ""

/-- The job payload job["input"]: each key may be absent. -/
structure JobInput where
  files : Option (List FileData)
  fields : Option (List SpecItem)
  tables : Option (List SpecItem)
  max_img_size : Option Nat
  model_name : Option String
deriving DecidableEq

/-- The violation messages appended for the items of one spec list
(worker.py lines 273-284); kind is "Field" or "Table". -/
def specItemErrors (kind : String) (items : List SpecItem) : List String :=
  (items.enum.map (fun p =>
    match p.2 with
    | .nonDict => [kind ++ " at index " ++ toString p.1 ++ " must be a dictionary"]
    | .noName _ => [kind ++ " at index " ++ toString p.1 ++ " missing required 'name' property"]
    | .named _ _ => [])).flatten

/-- The errors list accumulated by validate_input (worker.py lines
250-284), in source order: files checks, the empty fields-and-tables
check, per-field checks, per-table checks. -/
def validationErrors (inp : JobInput) : List String :=
  (match inp.files with
   | none => ["Missing required field: 'files'"]
   | some fs => if fs.length = 0 then ["'files' list cannot be empty"] else [])
  ++ (let fields := inp.fields.getD []
      let tables := inp.tables.getD []
      (if fields.length = 0 ∧ tables.length = 0 then
        ["At least one field or table must be specified"] else [])
      ++ specItemErrors "Field" fields ++ specItemErrors "Table" tables)

/-- The validated payload with defaults applied (worker.py lines 290-296). -/
structure ValidatedInput where
  files : List FileData
  fields : List SpecItem
  tables : List SpecItem
  max_img_size : Nat
  model_name : String
deriving DecidableEq

/-- validate_input (worker.py lines 224-296): raises ValueError joining
all accumulated violations with "; ", otherwise returns the defaults;
envModelName is the MODEL_NAME environment configuration. -/
def validate_input (envModelName : String) (inp : JobInput) : Except String ValidatedInput :=
  let errs := validationErrors inp
  if errs.isEmpty then
    .ok ⟨inp.files.getD [], inp.fields.getD [], inp.tables.getD [],
         inp.max_img_size.getD 1024, inp.model_name.getD ("hosted_vllm/" ++ envModelName)⟩
  else .error (String.intercalate "; " errs)

/-- One field or table row as shipped to Gradio before DataFrame
conversion: a dict with optional name, type and description keys. -/
structure RowItem where
  name : Option String
  type : Option String
  description : Option String
deriving DecidableEq

/-- The Gradio DataFrame wire format: headers, rows, metadata None. -/
structure GradioDF where
  headers : List String
  data : List (List String)
deriving DecidableEq

/-- dataframe_to_custom_dict (worker.py lines 299-327). -/
def dataframe_to_custom_dict (data : List RowItem) : GradioDF :=
  if data.isEmpty then ⟨["name", "type", "description"], []⟩
  else ⟨["name", "type", "description"],
        data.map (fun it => [it.name.getD "", it.type.getD "field", it.description.getD ""])⟩

/-- dict_to_dataframe (worker.py lines 330-342): each row becomes
dict(zip(headers, row)), modelled as an association list. -/
def dict_to_dataframe (d : GradioDF) : List (List (String × String)) :=
  if d.data.isEmpty then []
  else d.data.map (fun row => d.headers.zip row)

/-- Outcome of the external client.predict call on the Gradio service. -/
inductive ApiResult
  | ok (fieldsDf tablesDf : GradioDF)
  | exn (msg : String)

/-- call_gradio_api (worker.py lines 345-411) with the external Gradio
prediction supplied as predict: flattens fields then tables with their
kind discriminators, converts to the DataFrame format, and converts the
two returned DataFrames back; any exception propagates. -/
def call_gradio_api (predict : GradioDF → ApiResult) (fields tables : List SpecItem) :
    Except String (List (List (String × String)) × List (List (String × String))) :=
  let fad : List RowItem :=
    fields.map (fun f => ⟨some (specName f), some "field", some (specDesc f)⟩)
    ++ tables.map (fun t => ⟨some (specName t), some "table", some (specDesc t)⟩)
  match predict (dataframe_to_custom_dict fad) with
  | .exn e => .error e
  | .ok fdf tdf => .ok (dict_to_dataframe fdf, dict_to_dataframe tdf)

/-- The three response-envelope shapes of handler (worker.py lines
453-483); the diagnostic traceback string attached to the processing
shape is runtime text the embedding does not reconstruct. -/
inductive Envelope
  | success (fields tables : List (List (String × String)))
      (numDocs numFields numTables : Nat) (modelUsed : String)
  | validationError (error : String)
  | processingError (error : String)
deriving DecidableEq

/-- Observable outcome of one handler invocation: the response envelope,
the temporary files allocated during staging, and the temporary files the
finally block deletes. -/
structure HandlerResult where
  resp : Envelope
  allocated : List TempFile
  deleted : List TempFile
deriving DecidableEq

/-- handler (worker.py lines 414-489): validate, stage, call the Gradio
API, build the envelope; the except ValueError arm maps to the validation
envelope and the generic except arm to the processing envelope.  Every
staging failure in the modelled input space is a base64 decode failure,
and Python's binascii.Error is a subclass of ValueError, so a staging
exception lands in the except ValueError arm and yields the validation
envelope — after files were already written.  Exceptions of the external
Gradio call are modelled as non-ValueError and reach the generic arm.
The finally block deletes exactly the paths bound to temp_files, which
remains its initial empty list whenever decode_base64_files raises. -/
def handler (envModelName : String) (predict : List TempFile → GradioDF → ApiResult)
    (jobInput : JobInput) : HandlerResult :=
  match validate_input envModelName jobInput with
  | .error e => ⟨.validationError e, [], []⟩
  | .ok v =>
    match decode_base64_files v.files with
    | (written, .error e) => ⟨.validationError e, written, []⟩
    | (written, .ok tempFiles) =>
      match call_gradio_api (predict tempFiles) v.fields v.tables with
      | .error e => ⟨.processingError e, written, cleanup_temp_files tempFiles⟩
      | .ok (fl, tl) =>
        ⟨.success fl tl tempFiles.length v.fields.length v.tables.length v.model_name,
         written, cleanup_temp_files tempFiles⟩

/-! ## Claim theorems -/

/-- Claim C10: converting a list of field/table spec dicts to the Gradio
DataFrame wire format and back yields one dict per input item, in order,
whose name, type and description values equal the input values with
absent keys defaulted to "", "field" and "" respectively. -/
theorem C10_roundtrip (xs : List RowItem) :
    dict_to_dataframe (dataframe_to_custom_dict xs) =
      xs.map (fun it =>
        [("name", it.name.getD ""), ("type", it.type.getD "field"),
         ("description", it.description.getD "")]) := by
  cases xs with
  | nil => rfl
  | cons x t =>
    simp only [dataframe_to_custom_dict, dict_to_dataframe, List.isEmpty_cons,
      Bool.false_eq_true, if_false, List.map_map]
    refine List.map_congr_left ?_
    intro a _
    rfl

/-- Claim C7: for every model identifier and caller dtype, the argv list
built by start_server passes float16 as the value of the dtype flag and
appends the pair --quantization awq exactly when the lowercased model
identifier contains awq; otherwise the caller dtype is passed unchanged
and nothing is appended after the device arguments (the prefix before the
optional quantization pair always has 19 entries). -/
theorem C7_start_server_cmd (model_name host : String) (port max_model_len : Nat)
    (gpuMemUtil : String) (max_num_imgs : Nat) (dtype : String) (cuda : Bool) :
    (start_server_cmd model_name host port max_model_len gpuMemUtil max_num_imgs dtype cuda)[7]?
        = some "--dtype"
    ∧ (start_server_cmd model_name host port max_model_len gpuMemUtil max_num_imgs dtype cuda)[8]?
        = some (if isAwqModel model_name then "float16" else dtype)
    ∧ ∃ pre, start_server_cmd model_name host port max_model_len gpuMemUtil max_num_imgs dtype cuda
          = pre ++ (if isAwqModel model_name then ["--quantization", "awq"] else [])
        ∧ pre.length = 19 := by
  refine ⟨rfl, rfl, ⟨_, rfl, ?_⟩⟩
  cases cuda <;> rfl

lemma ocrLoop_map_ok (pages : List String) : ∀ n,
    ocrLoop n (pages.map Except.ok)
      = .ok (((List.enumFrom n pages).filter fun p => pyStripTruthy p.2).map
          fun p => pageEntry p.1 p.2) := by
  induction pages with
  | nil => intro n; rfl
  | cons x t ih =>
    intro n
    simp only [List.map_cons, ocrLoop, ih (n + 1), List.enumFrom, List.filter]
    cases h : pyStripTruthy x <;> simp [h]

lemma filter_length_add {α : Type} (p : α → Bool) (l : List α) :
    (l.filter p).length + (l.filter fun c => !(p c)).length = l.length := by
  induction l with
  | nil => rfl
  | cons x t ih =>
    cases h : p x <;> simp [List.filter, h] <;> omega

lemma enumFrom_filter_length {α : Type} (p : α → Bool) (l : List α) : ∀ n,
    ((List.enumFrom n l).filter fun q => p q.2).length = (l.filter p).length := by
  induction l with
  | nil => intro n; rfl
  | cons x t ih =>
    intro n
    simp only [List.enumFrom, List.filter]
    cases h : p x <;> simp [h, ih (n + 1)]

/-- Claim C1 counterexample: a 2-page document whose second page is
whitespace-only yields aggregated content with exactly one page-boundary
marker, not the two the claim requires (one per page including empty
pages); the empty page is dropped without a marker. -/
theorem C1_counterexample :
    process_with_ocr [Except.ok "hello", Except.ok " "] = .ok ("## Page 1\n\nhello", 2)
    ∧ countSub "## Page".data "## Page 1\n\nhello".data = 1
    ∧ ¬ countSub "## Page".data "## Page 1\n\nhello".data = 2 := by
  decide

/-- Claim C1 amended: when every page processes without exception the
aggregated content is built from one entry per page with non-whitespace
content, in ordinal order with the original 1-based ordinals; whitespace
pages are dropped without a marker, so there are exactly N minus K
entries, and when all pages are empty the sentinel string is returned. -/
theorem C1_amended (pages : List String) :
    process_with_ocr (pages.map Except.ok)
      = .ok ((if ((pages.enum.filter fun p => pyStripTruthy p.2).map
                fun p => pageEntry p.1 p.2).isEmpty
              then "No content extracted from PDF"
              else String.intercalate "\n\n"
                ((pages.enum.filter fun p => pyStripTruthy p.2).map
                  fun p => pageEntry p.1 p.2)), pages.length)
    ∧ ((pages.enum.filter fun p => pyStripTruthy p.2).map fun p => pageEntry p.1 p.2).length
      = pages.length - (pages.filter fun c => !(pyStripTruthy c)).length := by
  constructor
  · show process_with_ocr (pages.map Except.ok) = _
    unfold process_with_ocr
    rw [ocrLoop_map_ok pages 0, List.length_map, List.enum]
  · rw [List.length_map, List.enum, enumFrom_filter_length]
    have := filter_length_add pyStripTruthy pages
    omega

lemma ocrLoop_abort (pre : List String) : ∀ (n : Nat) (c : String)
    (post : List (Except String String)),
    ocrLoop n (pre.map Except.ok ++ Except.error c :: post) = .error c := by
  induction pre with
  | nil => intro n c post; rfl
  | cons x t ih =>
    intro n c post
    simp only [List.map_cons, List.cons_append, ocrLoop, List.append_eq, ih (n + 1) c post]

/-- Claim C2 counterexample: in a 2-page document, a backend exception on
one page aborts the whole document with a ConversionError; the sibling
page's content (whether before or after the failing page) appears in no
aggregated output and no per-page error is recorded. -/
theorem C2_counterexample :
    process_with_ocr [Except.error "backend failure", Except.ok "page two text"]
      = .error "OCR-based PDF processing failed: backend failure"
    ∧ process_with_ocr [Except.ok "page one text", Except.error "backend failure"]
      = .error "OCR-based PDF processing failed: backend failure" := by
  decide

/-- Claim C2 amended: a backend exception on any page propagates out of
the page loop and fails the whole document as a ConversionError; the
result is independent of the pages after the failing one (they are never
processed) and discards the content of the pages before it. -/
theorem C2_amended (pre : List String) (c : String) (post : List (Except String String)) :
    process_with_ocr (pre.map Except.ok ++ Except.error c :: post)
      = .error ("OCR-based PDF processing failed: " ++ c) := by
  unfold process_with_ocr
  rw [ocrLoop_abort pre 0 c post]

lemma waitGo_never_healthy (health : Nat → Bool) (h : ∀ j, health j = false) :
    ∀ (k i : Nat), waitGo health k i = (.stopThenExit1, 2 * (i + k)) := by
  intro k
  induction k with
  | zero => intro i; rfl
  | succ m ih =>
    intro i
    simp only [waitGo, h i, Bool.false_eq_true, if_false, ih (i + 1)]
    congr 1
    omega

/-- Claim C5 counterexample: with a health endpoint that never returns
200 and a 4-second timeout, wait_for_server ends by stopping the process
and calling exit(1), terminating the calling program; it does not raise a
StartupTimeoutError to its caller (no such exception exists in the code). -/
theorem C5_counterexample :
    wait_for_server (fun _ => false) 4 = (.stopThenExit1, 4)
    ∧ SupOutcome.stopThenExit1 ≠ SupOutcome.startupTimeoutError := by
  decide

/-- Claim C5 amended: if the health endpoint never returns 200,
wait_for_server stops the process and terminates the program via exit(1)
(rather than raising a StartupTimeoutError to its caller) within the
timeout plus one 2-second polling interval. -/
theorem C5_amended (health : Nat → Bool) (timeout : Nat)
    (h : ∀ j, health j = false) :
    wait_for_server health timeout = (.stopThenExit1, 2 * ((timeout + 1) / 2))
    ∧ timeout ≤ 2 * ((timeout + 1) / 2)
    ∧ 2 * ((timeout + 1) / 2) ≤ timeout + 2 := by
  refine ⟨?_, ?_, ?_⟩
  · unfold wait_for_server
    rw [waitGo_never_healthy health h, Nat.zero_add]
  · have h1 := Nat.div_add_mod (timeout + 1) 2
    have h2 : (timeout + 1) % 2 < 2 := Nat.mod_lt _ (by omega)
    omega
  · have h1 := Nat.div_add_mod (timeout + 1) 2
    omega

/-- Claim C5 witness: the amended theorem at a 5-second timeout. -/
theorem C5_amended_witness :
    wait_for_server (fun _ => false) 5 = (.stopThenExit1, 2 * ((5 + 1) / 2))
    ∧ 5 ≤ 2 * ((5 + 1) / 2)
    ∧ 2 * ((5 + 1) / 2) ≤ 5 + 2 :=
  C5_amended (fun _ => false) 5 (fun _ => rfl)

/-- Claim C6 counterexample: wait_for_server never inspects the process
handle (its model takes only the health oracle), so with a process that
exits 3 seconds after spawn and a health endpoint that never succeeds, a
10-second readiness wait polls out its whole budget (elapsed 10, not at
most 3 + 2) and ends in the stop-and-exit path, never in a
ProcessCrashError. -/
theorem C6_counterexample :
    wait_for_server (fun _ => false) 10 = (.stopThenExit1, 10)
    ∧ ¬ ((wait_for_server (fun _ => false) 10).2 ≤ 3 + 2)
    ∧ (wait_for_server (fun _ => false) 10).1 ≠ SupOutcome.processCrashError := by
  decide

lemma gradioGo_detects_death (alive health : Nat → Bool) (d : Nat)
    (hh : ∀ j, health j = false) (ha : ∀ j, alive j = decide (5 * j < d)) :
    ∀ (k i : Nat), i ≤ (d + 4) / 5 → (d + 4) / 5 < i + k →
      gradioGo alive health k i = (.gradioDied, 5 * ((d + 4) / 5)) := by
  have hd1 := Nat.div_add_mod (d + 4) 5
  have hd2 : (d + 4) % 5 < 5 := Nat.mod_lt _ (by omega)
  intro k
  induction k with
  | zero => intro i h1 h2; omega
  | succ m ih =>
    intro i h1 h2
    by_cases hi : i = (d + 4) / 5
    · have hdead : alive i = false := by
        rw [ha i, decide_eq_false]
        omega
      simp only [gradioGo, hdead, if_true]
      rw [hi]
    · have hlive : alive i = true := by
        rw [ha i, decide_eq_true_eq]
        omega
      simp only [gradioGo, hlive, Bool.true_eq_false, if_false, hh i,
        Bool.false_eq_true]
      exact ih (i + 1) (by omega) (by omega)

/-- Claim C6 amended: the vLLM readiness wait (wait_for_server) contains
no process-exit detection at all and polls until its full timeout (the C6
counterexample); the Gradio fallback wait does detect the exit, but on a
5-second cycle, not 2: if the process exits d seconds after spawn and the
health endpoint never succeeds, the loop raises the process-died
RuntimeError at its first poll cycle at or after d — within one 5-second
polling interval of the exit — rather than waiting out the timeout. -/
theorem C6_amended (alive health : Nat → Bool) (d maxStartupWait : Nat)
    (hh : ∀ j, health j = false) (ha : ∀ j, alive j = decide (5 * j < d))
    (hbudget : (d + 4) / 5 < maxStartupWait / 5) :
    wait_for_gradio_poll alive health maxStartupWait = (.gradioDied, 5 * ((d + 4) / 5))
    ∧ d ≤ 5 * ((d + 4) / 5)
    ∧ 5 * ((d + 4) / 5) < d + 5 := by
  have hd1 := Nat.div_add_mod (d + 4) 5
  have hd2 : (d + 4) % 5 < 5 := Nat.mod_lt _ (by omega)
  refine ⟨?_, by omega, by omega⟩
  unfold wait_for_gradio_poll
  exact gradioGo_detects_death alive health d hh ha (maxStartupWait / 5) 0
    (by omega) (by omega)

/-- Claim C6 witness: the amended theorem with the process exiting 3
seconds after spawn and a 20-second startup budget: death is detected at
elapsed 5 seconds, within one polling interval of the exit. -/
theorem C6_amended_witness :
    wait_for_gradio_poll (fun j => decide (5 * j < 3)) (fun _ => false) 20
      = (.gradioDied, 5 * ((3 + 4) / 5))
    ∧ 3 ≤ 5 * ((3 + 4) / 5)
    ∧ 5 * ((3 + 4) / 5) < 3 + 5 :=
  C6_amended (fun j => decide (5 * j < 3)) (fun _ => false) 3 20
    (fun _ => rfl) (fun _ => rfl) (by decide)

/-- Claim C4 counterexample: a request whose two field specs both carry
the empty name passes validation with no violation at all — validate_input
checks only that the name key exists, never that it is non-empty nor that
names are unique within the list. -/
theorem C4_counterexample :
    validationErrors ⟨some [⟨some "a.pdf", some "QQ==".data⟩],
        some [SpecItem.named "" none, SpecItem.named "" none], some [], none, none⟩ = []
    ∧ validate_input "Qwen/Qwen2.5-VL-3B-Instruct"
        ⟨some [⟨some "a.pdf", some "QQ==".data⟩],
         some [SpecItem.named "" none, SpecItem.named "" none], some [], none, none⟩
      = .ok ⟨[⟨some "a.pdf", some "QQ==".data⟩],
             [SpecItem.named "" none, SpecItem.named "" none], [], 1024,
             "hosted_vllm/Qwen/Qwen2.5-VL-3B-Instruct"⟩ := by
  decide

/-- Claim C4 amended: validate_input accumulates every violation it does
check (missing or empty files list, empty fields-and-tables pair, non-dict
specs, specs without a name key) into one combined ValueError — in
particular a request with no files key, zero fields and zero tables gets
both the files violation and the empty-pair violation in one error; but
it performs no non-empty-name check and no duplicate-name check (the
counterexample passes validation). -/
theorem C4_amended (envModelName : String) (inp : JobInput)
    (h1 : inp.files = none) (h2 : inp.fields.getD [] = [])
    (h3 : inp.tables.getD [] = []) :
    "Missing required field: 'files'" ∈ validationErrors inp
    ∧ "At least one field or table must be specified" ∈ validationErrors inp
    ∧ validate_input envModelName inp
      = .error (String.intercalate "; " (validationErrors inp)) := by
  have he : validationErrors inp
      = ["Missing required field: 'files'",
         "At least one field or table must be specified"] := by
    simp [validationErrors, h1, h2, h3, specItemErrors]
  refine ⟨by simp [he], by simp [he], ?_⟩
  simp [validate_input, he]

/-- Claim C4 witness: the amended theorem at the fully empty request. -/
theorem C4_amended_witness :
    "Missing required field: 'files'" ∈ validationErrors ⟨none, none, none, none, none⟩
    ∧ "At least one field or table must be specified"
        ∈ validationErrors ⟨none, none, none, none, none⟩
    ∧ validate_input "m" ⟨none, none, none, none, none⟩
      = .error (String.intercalate "; "
          (validationErrors ⟨none, none, none, none, none⟩)) :=
  C4_amended "m" ⟨none, none, none, none, none⟩ rfl rfl rfl

/-- Claim C3: failing input for the cleanup invariant — two documents, the
first valid base64, the second malformed ("QQQ" in the position of a
base64 body raises an Incorrect padding error).  decode_base64_files
raises after writing the first temporary file without returning it, so
the handler's temp_files stays empty and the finally block deletes
nothing: one file allocated, zero deleted; the binascii.Error is a
ValueError, so the leak is reported through the validation-error
envelope. -/
theorem C3_staging_leak :
    (handler "m" (fun _ _ => ApiResult.exn "unused")
        ⟨some [⟨some "a.pdf", some "QQ==".data⟩, ⟨some "b.pdf", some "QQQ".data⟩],
         some [SpecItem.named "invoice_number" none], some [], none, none⟩).allocated.length = 1
    ∧ (handler "m" (fun _ _ => ApiResult.exn "unused")
        ⟨some [⟨some "a.pdf", some "QQ==".data⟩, ⟨some "b.pdf", some "QQQ".data⟩],
         some [SpecItem.named "invoice_number" none], some [], none, none⟩).deleted.length = 0
    ∧ (handler "m" (fun _ _ => ApiResult.exn "unused")
        ⟨some [⟨some "a.pdf", some "QQ==".data⟩, ⟨some "b.pdf", some "QQQ".data⟩],
         some [SpecItem.named "invoice_number" none], some [], none, none⟩).resp
      = .validationError "Incorrect padding" := by
  decide

/-- Claim C9 counterexample: a request whose second document carries
malformed base64 makes staging raise after the first temporary file was
written; binascii.Error subclasses ValueError, so worker.py's except
ValueError arm reports it as a validation_error envelope even though a
resource had already been staged — contradicting both "a validation
failure comes with no resources staged" and "any other failure yields
processing_error". -/
theorem C9_counterexample :
    (handler "m" (fun _ _ => ApiResult.exn "unused")
        ⟨some [⟨some "x.png", some "aGk=".data⟩, ⟨some "y.png", some "Zg=".data⟩],
         some [SpecItem.named "total" none], some [], none, none⟩).resp
      = .validationError "Incorrect padding"
    ∧ (handler "m" (fun _ _ => ApiResult.exn "unused")
        ⟨some [⟨some "x.png", some "aGk=".data⟩, ⟨some "y.png", some "Zg=".data⟩],
         some [SpecItem.named "total" none], some [], none, none⟩).allocated
      = [⟨".png".data, [104, 105]⟩]
    ∧ validate_input "m"
        ⟨some [⟨some "x.png", some "aGk=".data⟩, ⟨some "y.png", some "Zg=".data⟩],
         some [SpecItem.named "total" none], some [], none, none⟩
      ≠ .error "Incorrect padding" := by
  decide

/-- Claim C9 amended: for every job input and every behaviour of the
external Gradio call, handler returns exactly one of the well-formed
envelopes and never lets an exception escape; but the envelope kinds do
not separate validation from processing the way the claim states: a
failure of validate_input yields the validation envelope with nothing
staged, while a mid-staging base64 failure (a binascii.Error, hence a
ValueError) ALSO yields the validation envelope although temporary
files were already staged; only a non-ValueError failure such as an
exception of the external API call yields the processing envelope;
success yields the success envelope whose metadata reports the number of
staged documents, the requested field and table counts and the resolved
model name. -/
theorem C9_amended (envModelName : String)
    (predict : List TempFile → GradioDF → ApiResult) (inp : JobInput) :
    (∃ e, validate_input envModelName inp = .error e
      ∧ handler envModelName predict inp = ⟨.validationError e, [], []⟩)
    ∨ (∃ v e, validate_input envModelName inp = .ok v
      ∧ (decode_base64_files v.files).2 = .error e
      ∧ handler envModelName predict inp
        = ⟨.validationError e, (decode_base64_files v.files).1, []⟩)
    ∨ (∃ v tfs e, validate_input envModelName inp = .ok v
      ∧ (decode_base64_files v.files).2 = .ok tfs
      ∧ call_gradio_api (predict tfs) v.fields v.tables = .error e
      ∧ handler envModelName predict inp
        = ⟨.processingError e, (decode_base64_files v.files).1, tfs⟩)
    ∨ (∃ v tfs fl tl, validate_input envModelName inp = .ok v
      ∧ (decode_base64_files v.files).2 = .ok tfs
      ∧ call_gradio_api (predict tfs) v.fields v.tables = .ok (fl, tl)
      ∧ handler envModelName predict inp
        = ⟨.success fl tl tfs.length v.fields.length v.tables.length v.model_name,
           (decode_base64_files v.files).1, tfs⟩) := by
  cases hv : validate_input envModelName inp with
  | error e => exact Or.inl ⟨e, rfl, by simp [handler, hv]⟩
  | ok v =>
    rcases hd : decode_base64_files v.files with ⟨written, res⟩
    cases res with
    | error e =>
      refine Or.inr (Or.inl ⟨v, e, rfl, by rw [hd], ?_⟩)
      simp [handler, hv, hd]
    | ok tfs =>
      cases hapi : call_gradio_api (predict tfs) v.fields v.tables with
      | error e =>
        refine Or.inr (Or.inr (Or.inl ⟨v, tfs, e, rfl, by rw [hd], hapi, ?_⟩))
        simp [handler, hv, hd, hapi, cleanup_temp_files]
      | ok p =>
        refine Or.inr (Or.inr (Or.inr ⟨v, tfs, p.1, p.2, rfl, by rw [hd], ?_, ?_⟩))
        · rw [hapi]
        · simp [handler, hv, hd, hapi, cleanup_temp_files]

lemma isPrefixOf_eq_true_ex (p : List Char) : ∀ l, p.isPrefixOf l = true → ∃ t, l = p ++ t := by
  induction p with
  | nil => intro l _; exact ⟨l, rfl⟩
  | cons a p' ih =>
    intro l h
    cases l with
    | nil => simp [List.isPrefixOf] at h
    | cons b l' =>
      simp only [List.isPrefixOf, Bool.and_eq_true, beq_iff_eq] at h
      obtain ⟨t, ht⟩ := ih l' h.2
      exact ⟨t, by rw [h.1, ht]; rfl⟩

lemma isPrefixOf_append_of_le (p : List Char) : ∀ (l t : List Char), p.length ≤ l.length →
    p.isPrefixOf (l ++ t) = p.isPrefixOf l := by
  induction p with
  | nil => intro l t _; simp [List.isPrefixOf]
  | cons a p' ih =>
    intro l t h
    cases l with
    | nil => simp at h
    | cons b l' =>
      simp only [List.cons_append, List.isPrefixOf, List.append_eq]
      rw [ih l' t (by simp only [List.length_cons] at h; omega)]

lemma countSub_append_sep_pos : ∀ (xs : List Char), 1 ≤ countSub sepB64 (xs ++ sepB64) := by
  intro xs
  induction xs with
  | nil => decide
  | cons c xs' ih =>
    rw [List.cons_append]
    simp only [countSub]
    omega

lemma dropThru_found_once : ∀ (pre rest : List Char), countSub sepB64 (pre ++ sepB64) = 1 →
    dropThruB64 (pre ++ (sepB64 ++ rest)) = some rest := by
  intro pre
  induction pre with
  | nil =>
    intro rest _
    show dropThruB64 (sepB64 ++ rest) = some rest
    rw [show sepB64 ++ rest = 'b' :: ('a' :: 's' :: 'e' :: '6' :: '4' :: ',' :: rest) from rfl]
    simp only [dropThruB64]
    have hp : sepB64.isPrefixOf ('b' :: ('a' :: 's' :: 'e' :: '6' :: '4' :: ',' :: rest)) = true := by
      simp [sepB64, List.isPrefixOf]
    simp [hp, sepB64]
  | cons c pre' ih =>
    intro rest h
    have hge := countSub_append_sep_pos pre'
    rw [List.cons_append] at h
    simp only [countSub] at h
    have hhead : sepB64.isPrefixOf (c :: (pre' ++ sepB64)) = false := by
      cases hp : sepB64.isPrefixOf (c :: (pre' ++ sepB64)) with
      | false => rfl
      | true => rw [hp] at h; simp at h; omega
    have htail : countSub sepB64 (pre' ++ sepB64) = 1 := by
      rw [hhead] at h
      simp at h
      exact h
    have hlen : sepB64.length ≤ (c :: (pre' ++ sepB64)).length := by
      have h7 : sepB64.length = 7 := rfl
      simp only [List.length_cons, List.length_append, h7]
      omega
    have hfull : sepB64.isPrefixOf (c :: (pre' ++ (sepB64 ++ rest))) = false := by
      have heq : c :: (pre' ++ (sepB64 ++ rest)) = (c :: (pre' ++ sepB64)) ++ rest := by
        simp [List.append_assoc]
      rw [heq, isPrefixOf_append_of_le sepB64 (c :: (pre' ++ sepB64)) rest hlen, hhead]
    rw [List.cons_append]
    simp only [dropThruB64, hfull, Bool.false_eq_true, if_false]
    exact ih rest htail

lemma takeUntil_noComma (s : List Char) (hc : ',' ∉ s) : takeUntilB64 s = s := by
  induction s with
  | nil => rfl
  | cons c rest ih =>
    have hfalse : sepB64.isPrefixOf (c :: rest) = false := by
      cases hp : sepB64.isPrefixOf (c :: rest) with
      | false => rfl
      | true =>
        exfalso
        obtain ⟨t, ht⟩ := isPrefixOf_eq_true_ex _ _ hp
        exact hc (by rw [ht]; exact List.mem_append.mpr (Or.inl (by decide)))
    simp only [takeUntilB64, hfalse, Bool.false_eq_true, if_false]
    rw [ih (fun hm => hc (List.mem_cons_of_mem c hm))]

lemma dropThru_noComma (s : List Char) (hc : ',' ∉ s) : dropThruB64 s = none := by
  induction s with
  | nil => rfl
  | cons c rest ih =>
    have hfalse : sepB64.isPrefixOf (c :: rest) = false := by
      cases hp : sepB64.isPrefixOf (c :: rest) with
      | false => rfl
      | true =>
        exfalso
        obtain ⟨t, ht⟩ := isPrefixOf_eq_true_ex _ _ hp
        exact hc (by rw [ht]; exact List.mem_append.mpr (Or.inl (by decide)))
    simp only [dropThruB64, hfalse, Bool.false_eq_true, if_false]
    exact ih (fun hm => hc (List.mem_cons_of_mem c hm))

/-- Claim C8 counterexample: the claim quantifies over every data-URI
prefix ending in "base64,"; for the prefix "base64,base64," (which ends
in "base64,") the staging decoder takes split("base64,")[1], the empty
segment between the two separator occurrences, so the decoded bytes are
empty while decoding the payload "QQ==" directly yields the byte 65 —
not byte-identical. -/
theorem C8_counterexample :
    stripDataUri ("base64,base64,".data ++ "QQ==".data) = []
    ∧ b64decode (stripDataUri ("base64,base64,".data ++ "QQ==".data)) = .ok []
    ∧ b64decode (stripDataUri "QQ==".data) = .ok [65]
    ∧ (Except.ok [] : Except String (List Nat)) ≠ .ok [65] := by
  decide

/-- Claim C8 amended: for every data-URI prefix in which "base64," occurs
exactly once, namely as its suffix (the prefix is pre ++ "base64," with a
single occurrence counted over the whole prefix), and every payload over
the base64 alphabet with '=' padding, stripping the prefixed string
yields exactly the payload, so the staging decoder produces
byte-identical output for the prefixed and the bare payload. -/
theorem C8_amended (pre payload : List Char)
    (h1 : countSub sepB64 (pre ++ sepB64) = 1)
    (h2 : payload.all (fun c => b64isData c || c == '=') = true) :
    stripDataUri (pre ++ (sepB64 ++ payload)) = payload
    ∧ b64decode (stripDataUri (pre ++ (sepB64 ++ payload)))
      = b64decode (stripDataUri payload) := by
  have hcp : ',' ∉ payload := by
    intro hmem
    have h := (List.all_eq_true.mp h2) ',' hmem
    exact absurd h (by decide)
  have hstrip : stripDataUri (pre ++ (sepB64 ++ payload)) = payload := by
    unfold stripDataUri
    rw [dropThru_found_once pre payload h1]
    exact takeUntil_noComma payload hcp
  have hdirect : stripDataUri payload = payload := by
    unfold stripDataUri
    rw [dropThru_noComma payload hcp]
  exact ⟨hstrip, by rw [hstrip, hdirect]⟩

/-- Claim C8 witness: the amended theorem for the prefix
"data:text/plain;foo=a,b;base64," — a prefix that contains a comma in a
media-type parameter yet has a single "base64," occurrence — and the
payload "QQ==". -/
theorem C8_amended_witness :
    stripDataUri ("data:text/plain;foo=a,b;".data ++ (sepB64 ++ "QQ==".data)) = "QQ==".data
    ∧ b64decode (stripDataUri ("data:text/plain;foo=a,b;".data ++ (sepB64 ++ "QQ==".data)))
      = b64decode (stripDataUri "QQ==".data) :=
  C8_amended "data:text/plain;foo=a,b;".data "QQ==".data (by decide) (by decide)

end Dextra
